import Mathlib

/-!
# ESP32 + ADS1115 Bluetooth voltage streamer

A shallow embedding of the two Arduino sketches `ECE24-4/esp32Arduino.cpp` and
`ECE24-4/ESP32Main.cpp`.

Both sketches talk to three collaborators that live outside the repository: the
`Serial` console, the `SerialBT` Bluetooth endpoint and the `ads` ADS1115 driver
object.  Every call a sketch makes on one of them is recorded, in program order,
as an `Event`; a value that a collaborator hands back (the result of `begin()`,
of `conversionComplete()`, of `readADC_SingleEnded(n)`) is an input of the
model.  What the collaborators compute internally (`computeVolts` and the
`String(float)` conversion) is kept abstract in a `Platform` record; where a
property needs more of a collaborator than the sketches show, that part is
modelled from the specification and marked as such.
-/

namespace Wisteria

/-! ## Collaborators -/

/-- Gain selector of the ADS1X15 driver (`adsGain_t` in `Adafruit_ADS1X15.h`);
the sketches only ever name `GAIN_ONE`. -/
inductive adsGain_t where
  | GAIN_TWOTHIRDS
  | GAIN_ONE
  | GAIN_TWO
  | GAIN_FOUR
  | GAIN_EIGHT
  | GAIN_SIXTEEN
  deriving DecidableEq, Repr

/-- One call made by a sketch on a collaborator, with its arguments and, where the
sketch receives one, the value handed back. -/
inductive Event where
  /-- Call `Serial.begin(baud)` -/
  | Serial_begin (baud : Nat)
  /-- Call `delay(ms)` -/
  | delay (ms : Nat)
  /-- Call `SerialBT.begin(name)` together with the boolean it returned -/
  | SerialBT_begin (name : String) (result : Bool)
  /-- Call `Serial.println(s)` on a `String` argument -/
  | Serial_println (s : String)
  /-- Call `Serial.println(n)` on an `int16_t` argument -/
  | Serial_println_int (n : Int)
  /-- Call `ads.begin()` together with the boolean it returned -/
  | ads_begin (result : Bool)
  /-- Call `ads.setGain(g)` -/
  | ads_setGain (g : adsGain_t)
  /-- Call `ads.setDataRate(rate)` -/
  | ads_setDataRate (rate : Nat)
  /-- Call `ads.conversionComplete()` together with the boolean it returned -/
  | ads_conversionComplete (result : Bool)
  /-- Call `ads.readADC_SingleEnded(channel)` together with the raw code it returned -/
  | ads_readADC_SingleEnded (channel : Nat) (result : Int)
  /-- Call `ads.computeVolts(counts)` -/
  | ads_computeVolts (counts : Int)
  /-- Call `SerialBT.println(s)` -/
  | SerialBT_println (s : String)
  deriving DecidableEq, Repr

/-- The parts of the platform the sketches use as black boxes.  `F` stands for the
C++ type `float`. -/
structure Platform (F : Type) where
  /-- Call `ads.computeVolts(counts)`, the driver's raw-code-to-voltage map -/
  computeVolts : Int → F
  /-- Conversion `String(v)` for a `float` argument -/
  String_of_float : F → String

/-- What the ADC driver answers during one pass of `loop()`: the result of
`conversionComplete()` and, per channel, the `int16_t` raw code that
`readADC_SingleEnded` returns. -/
structure Tick where
  conversionComplete : Bool
  readADC_SingleEnded : Nat → Int

/-- Where control is once `setup()` has run as far as it can: inside the
`while (1) { delay(10); }` of the failure branch, or back in the runtime that
calls `loop()`. -/
inductive Control where
  | in_halt_loop
  | in_main_loop
  deriving DecidableEq, Repr

/-- The sketch state: the global `starting` and the position of control. -/
structure Machine where
  starting : Bool
  control : Control
  deriving DecidableEq, Repr

/-- The pieces of one sketch file. -/
structure Sketch (F : Type) where
  /-- Initial value of the global `starting` -/
  starting : Bool
  /-- Function `setup()`, given the results of `SerialBT.begin` and `ads.begin` -/
  setup : Bool → Bool → Control × List Event
  /-- One pass of the body of the `while (1)` inside `setup()` -/
  halt_loop_body : List Event
  /-- Function `loop()`, given the platform, the current `starting` and the ADC answers -/
  loop : Platform F → Bool → Tick → Bool × List Event

/-! ## `ECE24-4/esp32Arduino.cpp` -/

namespace esp32Arduino

/-- The global `String device_name = "ESP32-BT";` (line 9). -/
def device_name : String := "ESP32-BT"

/-- The global `bool starting = true;` (line 22). -/
def starting : Bool := true

/-- The function `setup()` (lines 36-52).  The two arguments are the values returned
by `SerialBT.begin(device_name)` and by `ads.begin()`.  The result says where
control ends up and lists the calls made up to that point. -/
def setup (SerialBT_begin_result ads_begin_result : Bool) : Control × List Event :=
  let head : List Event :=
    [ Event.Serial_begin 115200,
      Event.delay 1000,
      Event.SerialBT_begin device_name SerialBT_begin_result,
      Event.Serial_println ("Bluetooth device started. Pair with \"" ++ device_name ++ "\"."),
      Event.ads_begin ads_begin_result ]
  if !ads_begin_result then
    (Control.in_halt_loop, head ++ [Event.Serial_println "Failed to initialize ADS1115!"])
  else
    (Control.in_main_loop,
      head ++ [Event.ads_setGain adsGain_t.GAIN_ONE, Event.ads_setDataRate 250])

/-- One pass of `while (1) { delay(10); }` (line 46). -/
def halt_loop_body : List Event := [Event.delay 10]

/-- The function `loop()` (lines 66-89).  Takes the current value of `starting` and
returns its new value with the calls made.  `conversionComplete()` is the left
operand of `or`, so it is called on every pass. -/
def loop {F : Type} (P : Platform F) (starting : Bool) (t : Tick) : Bool × List Event :=
  let cc := t.conversionComplete
  if cc || starting then
    let adc0 := t.readADC_SingleEnded 0
    let volts0 := P.computeVolts adc0
    let adc1 := t.readADC_SingleEnded 1
    let volts1 := P.computeVolts adc1
    let adc2 := t.readADC_SingleEnded 2
    let volts2 := P.computeVolts adc2
    let dataPacket :=
      P.String_of_float volts0 ++ "," ++ P.String_of_float volts1 ++ "," ++
        P.String_of_float volts2
    (false,
      [ Event.ads_conversionComplete cc,
        Event.ads_readADC_SingleEnded 0 adc0,
        Event.ads_computeVolts adc0,
        Event.ads_readADC_SingleEnded 1 adc1,
        Event.ads_computeVolts adc1,
        Event.ads_readADC_SingleEnded 2 adc2,
        Event.ads_computeVolts adc2,
        Event.Serial_println_int adc0,
        Event.SerialBT_println dataPacket ])
  else
    (starting, [Event.ads_conversionComplete cc])

/-- The sketch `esp32Arduino.cpp`. -/
def sketch (F : Type) : Sketch F where
  starting := starting
  setup := setup
  halt_loop_body := halt_loop_body
  loop := loop

end esp32Arduino

/-! ## `ECE24-4/ESP32Main.cpp` -/

namespace ESP32Main

/-- The global `String device_name = "ESP32-BT";` (line 9). -/
def device_name : String := "ESP32-BT"

/-- The global `bool starting = true;` (line 19). -/
def starting : Bool := true

/-- The function `setup()` (lines 21-34), with the results of
`SerialBT.begin(device_name)` and `ads.begin()` as arguments. -/
def setup (SerialBT_begin_result ads_begin_result : Bool) : Control × List Event :=
  let head : List Event :=
    [ Event.Serial_begin 115200,
      Event.delay 1000,
      Event.SerialBT_begin device_name SerialBT_begin_result,
      Event.Serial_println ("Bluetooth device started. Pair with \"" ++ device_name ++ "\"."),
      Event.ads_begin ads_begin_result ]
  if !ads_begin_result then
    (Control.in_halt_loop, head ++ [Event.Serial_println "Failed to initialize ADS1115!"])
  else
    (Control.in_main_loop,
      head ++ [Event.ads_setGain adsGain_t.GAIN_ONE, Event.ads_setDataRate 250])

/-- One pass of `while (1) { delay(10); }` (line 29). -/
def halt_loop_body : List Event := [Event.delay 10]

/-- The function `loop()` (lines 35-48). -/
def loop {F : Type} (P : Platform F) (starting : Bool) (t : Tick) : Bool × List Event :=
  let cc := t.conversionComplete
  if cc || starting then
    let adc0 := t.readADC_SingleEnded 0
    let volts0 := P.computeVolts adc0
    let adc1 := t.readADC_SingleEnded 1
    let volts1 := P.computeVolts adc1
    let adc2 := t.readADC_SingleEnded 2
    let volts2 := P.computeVolts adc2
    let dataPacket :=
      P.String_of_float volts0 ++ "," ++ P.String_of_float volts1 ++ "," ++
        P.String_of_float volts2
    (false,
      [ Event.ads_conversionComplete cc,
        Event.ads_readADC_SingleEnded 0 adc0,
        Event.ads_computeVolts adc0,
        Event.ads_readADC_SingleEnded 1 adc1,
        Event.ads_computeVolts adc1,
        Event.ads_readADC_SingleEnded 2 adc2,
        Event.ads_computeVolts adc2,
        Event.Serial_println_int adc0,
        Event.SerialBT_println dataPacket ])
  else
    (starting, [Event.ads_conversionComplete cc])

/-- The sketch `ESP32Main.cpp`. -/
def sketch (F : Type) : Sketch F where
  starting := starting
  setup := setup
  halt_loop_body := halt_loop_body
  loop := loop

end ESP32Main

/-- The two source files of the repository. -/
inductive SourceFile where
  | esp32Arduino_cpp
  | ESP32Main_cpp
  deriving DecidableEq, Repr

/-- The sketch a source file contains. -/
def SourceFile.sketch (F : Type) : SourceFile → Sketch F
  | SourceFile.esp32Arduino_cpp => esp32Arduino.sketch F
  | SourceFile.ESP32Main_cpp => ESP32Main.sketch F

/-! ## Running a sketch -/

/-- Modelled from the spec: the platform scheduler (the Arduino runtime, not under
`src/`) runs the initialisation once before the loop.  `boot` is that first phase:
the globals take their initial values and `setup()` runs until it returns or gets
caught in its `while (1)`. -/
def boot {F : Type} (sk : Sketch F) (SerialBT_begin_result ads_begin_result : Bool) :
    Machine × List Event :=
  let r := sk.setup SerialBT_begin_result ads_begin_result
  (⟨sk.starting, r.1⟩, r.2)

/-- Modelled from the spec: the scheduler re-invokes the loop body indefinitely.  One
step is one call of `loop()` when `setup()` has returned, and one pass of the halt
loop when it has not (no driver is consulted then, so the tick is unused). -/
def step {F : Type} (sk : Sketch F) (P : Platform F) (m : Machine) (t : Tick) :
    Machine × List Event :=
  match m.control with
  | Control.in_halt_loop => (m, sk.halt_loop_body)
  | Control.in_main_loop =>
    let r := sk.loop P m.starting t
    (⟨r.1, Control.in_main_loop⟩, r.2)

/-- The calls made by each of the successive steps, one list per step. -/
def iterations {F : Type} (sk : Sketch F) (P : Platform F) : Machine → List Tick → List (List Event)
  | _, [] => []
  | m, t :: ts => (step sk P m t).2 :: iterations sk P (step sk P m t).1 ts

/-- The state after the successive steps. -/
def final {F : Type} (sk : Sketch F) (P : Platform F) : Machine → List Tick → Machine
  | m, [] => m
  | m, t :: ts => final sk P (step sk P m t).1 ts

/-- A whole run: `setup()` followed by one step per tick.  Returns the final state and
every call made, in order. -/
def run {F : Type} (sk : Sketch F) (P : Platform F) (SerialBT_begin_result ads_begin_result : Bool)
    (ticks : List Tick) : Machine × List Event :=
  let b := boot sk SerialBT_begin_result ads_begin_result
  (final sk P b.1 ticks, b.2 ++ (iterations sk P b.1 ticks).flatten)

/-! ## Observations on call sequences -/

/-- The channels passed to `ads.readADC_SingleEnded`, in call order. -/
def channelReads : List Event → List Nat
  | [] => []
  | Event.ads_readADC_SingleEnded ch _ :: es => ch :: channelReads es
  | _ :: es => channelReads es

/-- The arguments of the `SerialBT.println` calls, in call order. -/
def btLines : List Event → List String
  | [] => []
  | Event.SerialBT_println s :: es => s :: btLines es
  | _ :: es => btLines es

/-- The calls that write to `Serial`. -/
def serialWrites : List Event → List Event
  | [] => []
  | Event.Serial_println s :: es => Event.Serial_println s :: serialWrites es
  | Event.Serial_println_int n :: es => Event.Serial_println_int n :: serialWrites es
  | _ :: es => serialWrites es

/-- The calls made on the ADC driver object `ads`. -/
def adsCalls : List Event → List Event
  | [] => []
  | Event.ads_begin r :: es => Event.ads_begin r :: adsCalls es
  | Event.ads_setGain g :: es => Event.ads_setGain g :: adsCalls es
  | Event.ads_setDataRate r :: es => Event.ads_setDataRate r :: adsCalls es
  | Event.ads_conversionComplete r :: es => Event.ads_conversionComplete r :: adsCalls es
  | Event.ads_readADC_SingleEnded c r :: es => Event.ads_readADC_SingleEnded c r :: adsCalls es
  | Event.ads_computeVolts c :: es => Event.ads_computeVolts c :: adsCalls es
  | _ :: es => adsCalls es

/-- The gains handed to `ads.setGain`, in call order. -/
def gainsSet : List Event → List adsGain_t
  | [] => []
  | Event.ads_setGain g :: es => g :: gainsSet es
  | _ :: es => gainsSet es

/-- The values handed to `ads.setDataRate`, in call order. -/
def dataRatesSet : List Event → List Nat
  | [] => []
  | Event.ads_setDataRate r :: es => r :: dataRatesSet es
  | _ :: es => dataRatesSet es

/-- Modelled from the spec: the line-printing primitive of the wireless transport
(`println`, not under `src/`) supplies the trailing newline of an output record, and
nothing else frames the record (sections 3 and 6: one line per accepted sample of the
form `<volts0>,<volts1>,<volts2>\n`). -/
def println_terminator : String := "\n"

/-- The characters sent to `SerialBT`: each `println` sends its argument followed by
the terminator of `println`. -/
def SerialBT_bytes : List Event → String
  | [] => ""
  | Event.SerialBT_println s :: es => s ++ println_terminator ++ SerialBT_bytes es
  | _ :: es => SerialBT_bytes es

/-! ## Voltage scale -/

/-- Modelled from the spec: the full-scale range of the gain that `setup()` configures,
`GAIN_ONE`, in volts (section 4.1 step 4: a ±4.096 V full-scale range; the sketches
comment the call with `//max voltage 4.096 V`). -/
def full_scale_range : ℚ := 4.096

/-- Modelled from the spec: the driver's `computeVolts` (not under `src/`) under the
configured gain, section 8 property 5:
voltage = raw_code × (full_scale_range / 32768). -/
def computeVolts_spec (raw_code : Int) : ℚ := raw_code * (full_scale_range / 32768)

/-- The platform whose `computeVolts` is the map of the specification; voltages are
rationals and the string conversion `str` is left open. -/
def specPlatform (str : ℚ → String) : Platform ℚ where
  computeVolts := computeVolts_spec
  String_of_float := str

/-- A stand-in string conversion for rationals: numerator, a slash, denominator. -/
def sampleRatString (v : ℚ) : String := toString v.num ++ "/" ++ toString v.den


/-! ## Driver constant -/

/-- Selector the ADS1X15 driver defines for 250 samples per second on the ADS1115,
`RATE_ADS1115_250SPS (0x00A0)` in `Adafruit_ADS1X15.h`, the header both sketches
include (the driver is not under `src/`).  The argument of `setDataRate` is such a
selector: the driver stores it and ORs it into the configuration register, whose
data-rate field is bits 7 to 5. -/
def RATE_ADS1115_250SPS : Nat := 0x00A0

/-! ## Sample data for evaluating the model -/

/-- A stand-in platform on which the model can be evaluated: voltages are carried as
integers, `computeVolts` hands the raw code through and the string conversion is the
decimal one. -/
def samplePlatform : Platform Int where
  computeVolts := fun counts => counts
  String_of_float := fun v => toString v

/-- A tick on which the driver answers `cc` to `conversionComplete()` and raw code
`100 * (channel + 1)` to a read of `channel`. -/
def sampleTick (cc : Bool) : Tick where
  conversionComplete := cc
  readADC_SingleEnded := fun channel => 100 * (channel + 1)

/-- A tick on which the driver answers false to `conversionComplete()` and the raw
codes 16384, 0 and -32768 to reads of channels 0, 1 and 2. -/
def scaleTick : Tick where
  conversionComplete := false
  readADC_SingleEnded := fun channel =>
    if channel = 0 then 16384 else if channel = 1 then 0 else -32768

/-- The state a successful `setup()` leaves behind. -/
def afterSetup : Machine := ⟨true, Control.in_main_loop⟩

/-- The calls of a pass of `loop()` that goes through the `if`. -/
def acceptedCalls {F : Type} (P : Platform F) (t : Tick) : List Event :=
  [ Event.ads_conversionComplete t.conversionComplete,
    Event.ads_readADC_SingleEnded 0 (t.readADC_SingleEnded 0),
    Event.ads_computeVolts (t.readADC_SingleEnded 0),
    Event.ads_readADC_SingleEnded 1 (t.readADC_SingleEnded 1),
    Event.ads_computeVolts (t.readADC_SingleEnded 1),
    Event.ads_readADC_SingleEnded 2 (t.readADC_SingleEnded 2),
    Event.ads_computeVolts (t.readADC_SingleEnded 2),
    Event.Serial_println_int (t.readADC_SingleEnded 0),
    Event.SerialBT_println
      (P.String_of_float (P.computeVolts (t.readADC_SingleEnded 0)) ++ "," ++
        P.String_of_float (P.computeVolts (t.readADC_SingleEnded 1)) ++ "," ++
        P.String_of_float (P.computeVolts (t.readADC_SingleEnded 2))) ]

/-! ## Basic facts about the two sketches -/

section Basics

variable {F : Type}

theorem sketch_eq (f : SourceFile) : f.sketch F = esp32Arduino.sketch F := by
  cases f <;> rfl

theorem loop_accept (P : Platform F) (s : Bool) (t : Tick)
    (h : (t.conversionComplete || s) = true) :
    esp32Arduino.loop P s t = (false, acceptedCalls P t) := by
  simp only [esp32Arduino.loop, h, if_true, acceptedCalls]

theorem loop_skip (P : Platform F) (t : Tick) (h : t.conversionComplete = false) :
    esp32Arduino.loop P false t = (false, [Event.ads_conversionComplete false]) := by
  simp [esp32Arduino.loop, h]

theorem loop_starting_false (P : Platform F) (t : Tick) :
    (esp32Arduino.loop P false t).1 = false := by
  cases h : t.conversionComplete <;> simp [esp32Arduino.loop, h]

theorem loop_first (P : Platform F) (t : Tick) :
    esp32Arduino.loop P true t = (false, acceptedCalls P t) :=
  loop_accept P true t (by simp)

theorem step_main (P : Platform F) (s : Bool) (t : Tick) :
    step (esp32Arduino.sketch F) P ⟨s, Control.in_main_loop⟩ t =
      (⟨(esp32Arduino.loop P s t).1, Control.in_main_loop⟩, (esp32Arduino.loop P s t).2) := rfl

theorem step_halt (P : Platform F) (s : Bool) (t : Tick) :
    step (esp32Arduino.sketch F) P ⟨s, Control.in_halt_loop⟩ t =
      (⟨s, Control.in_halt_loop⟩, [Event.delay 10]) := rfl

theorem iterations_steady (P : Platform F) (ts : List Tick) :
    iterations (esp32Arduino.sketch F) P ⟨false, Control.in_main_loop⟩ ts =
      ts.map (fun t => (esp32Arduino.loop P false t).2) := by
  induction ts with
  | nil => rfl
  | cons t ts ih =>
    simp only [iterations, step_main, loop_starting_false, List.map_cons]
    rw [ih]

theorem final_steady (P : Platform F) (ts : List Tick) :
    final (esp32Arduino.sketch F) P ⟨false, Control.in_main_loop⟩ ts =
      ⟨false, Control.in_main_loop⟩ := by
  induction ts with
  | nil => rfl
  | cons t ts ih =>
    simp only [final, step_main, loop_starting_false]
    exact ih

theorem iterations_halt (P : Platform F) (s : Bool) (ts : List Tick) :
    iterations (esp32Arduino.sketch F) P ⟨s, Control.in_halt_loop⟩ ts =
      ts.map (fun _ => [Event.delay 10]) := by
  induction ts with
  | nil => rfl
  | cons t ts ih =>
    simp only [iterations, step_halt, List.map_cons]
    rw [ih]

theorem final_halt (P : Platform F) (s : Bool) (ts : List Tick) :
    final (esp32Arduino.sketch F) P ⟨s, Control.in_halt_loop⟩ ts =
      ⟨s, Control.in_halt_loop⟩ := by
  induction ts with
  | nil => rfl
  | cons t ts ih =>
    simp only [final, step_halt]
    exact ih

theorem boot_ok (b : Bool) :
    boot (esp32Arduino.sketch F) b true =
      (afterSetup,
        [ Event.Serial_begin 115200, Event.delay 1000, Event.SerialBT_begin "ESP32-BT" b,
          Event.Serial_println "Bluetooth device started. Pair with \"ESP32-BT\".",
          Event.ads_begin true, Event.ads_setGain adsGain_t.GAIN_ONE,
          Event.ads_setDataRate 250 ]) := by
  cases b <;> rfl

theorem boot_failed (b : Bool) :
    boot (esp32Arduino.sketch F) b false =
      (⟨true, Control.in_halt_loop⟩,
        [ Event.Serial_begin 115200, Event.delay 1000, Event.SerialBT_begin "ESP32-BT" b,
          Event.Serial_println "Bluetooth device started. Pair with \"ESP32-BT\".",
          Event.ads_begin false, Event.Serial_println "Failed to initialize ADS1115!" ]) := by
  cases b <;> rfl

end Basics


section Gate

variable {F : Type}

theorem channelReads_accepted (P : Platform F) (t : Tick) :
    channelReads (acceptedCalls P t) = [0, 1, 2] := rfl

theorem btLines_accepted (P : Platform F) (t : Tick) :
    btLines (acceptedCalls P t) =
      [ P.String_of_float (P.computeVolts (t.readADC_SingleEnded 0)) ++ "," ++
          P.String_of_float (P.computeVolts (t.readADC_SingleEnded 1)) ++ "," ++
          P.String_of_float (P.computeVolts (t.readADC_SingleEnded 2)) ] := rfl

theorem iterations_afterSetup (P : Platform F) (t : Tick) (ts : List Tick) :
    iterations (esp32Arduino.sketch F) P afterSetup (t :: ts) =
      acceptedCalls P t :: ts.map (fun u => (esp32Arduino.loop P false u).2) := by
  simp only [iterations, afterSetup, step_main, loop_first, iterations_steady]

theorem final_afterSetup (P : Platform F) (t : Tick) (ts : List Tick) :
    final (esp32Arduino.sketch F) P afterSetup (t :: ts) = ⟨false, Control.in_main_loop⟩ := by
  simp only [final, afterSetup, step_main, loop_first, final_steady]

/-- What a pass of `loop()` with `starting = false` does, by the driver's answer. -/
theorem steady_pass (P : Platform F) (t : Tick) :
    (t.conversionComplete = true ∧ (esp32Arduino.loop P false t).2 = acceptedCalls P t) ∨
    (t.conversionComplete = false ∧
      (esp32Arduino.loop P false t).2 = [Event.ads_conversionComplete false]) := by
  cases h : t.conversionComplete
  · right
    exact ⟨rfl, by rw [loop_skip P t h]⟩
  · left
    exact ⟨rfl, by rw [loop_accept P false t (by simp [h])]⟩

end Gate

/-- C1, gate correctness over whole runs.  Start either sketch from the state a
successful `setup()` leaves (whatever `SerialBT.begin` returned) and feed it any
sequence of driver answers.  Every iteration `k` of the sequence produces its calls,
and it reads the three ADC channels and sends one line to `SerialBT` exactly when
`conversionComplete()` answered true on it or `k = 0`; otherwise it reads no channel
and sends no line.  In particular a line sent on a later iteration is sent on one
whose `conversionComplete()` answer is true. -/
theorem gate_correct_over_runs {F : Type} (f : SourceFile) (P : Platform F) (bt : Bool)
    (ticks : List Tick) (k : Nat) (t : Tick) (ht : ticks[k]? = some t) :
    (boot (f.sketch F) bt true).1.starting = true ∧
    ∃ evs, (iterations (f.sketch F) P (boot (f.sketch F) bt true).1 ticks)[k]? = some evs ∧
      ((channelReads evs = [0, 1, 2] ∧ (btLines evs).length = 1) ↔
        (t.conversionComplete = true ∨ k = 0)) ∧
      (¬ (t.conversionComplete = true ∨ k = 0) → channelReads evs = [] ∧ btLines evs = []) ∧
      (0 < k → btLines evs ≠ [] → t.conversionComplete = true) := by
  rw [sketch_eq f, boot_ok bt]
  refine ⟨rfl, ?_⟩
  cases ticks with
  | nil => simp at ht
  | cons t0 ts =>
    rw [iterations_afterSetup]
    cases k with
    | zero =>
      simp only [List.getElem?_cons_zero, Option.some.injEq] at ht
      subst ht
      refine ⟨acceptedCalls P t0, List.getElem?_cons_zero, ?_, ?_, ?_⟩
      · simp [channelReads_accepted, btLines_accepted]
      · intro h
        exact absurd (Or.inr rfl) h
      · intro h
        exact absurd h (Nat.lt_irrefl 0)
    | succ j =>
      simp only [List.getElem?_cons_succ] at ht
      refine ⟨(esp32Arduino.loop P false t).2, ?_, ?_⟩
      · simp only [List.getElem?_cons_succ, List.getElem?_map, ht, Option.map_some']
      · rcases steady_pass P t with ⟨hc, he⟩ | ⟨hc, he⟩
        · rw [he]
          simp [channelReads_accepted, btLines_accepted, hc]
        · rw [he]
          simp [channelReads, btLines, hc]

/-- Witness for C1 on a four-tick run whose answers are false, true, false, true:
iteration 1 (answer true) is checked. -/
theorem gate_correct_over_runs_witness :
    [sampleTick false, sampleTick true, sampleTick false, sampleTick true][1]? =
        some (sampleTick true) ∧
    ((boot (SourceFile.esp32Arduino_cpp.sketch Int) true true).1.starting = true ∧
    ∃ evs, (iterations (SourceFile.esp32Arduino_cpp.sketch Int) samplePlatform
        (boot (SourceFile.esp32Arduino_cpp.sketch Int) true true).1
        [sampleTick false, sampleTick true, sampleTick false, sampleTick true])[1]? = some evs ∧
      ((channelReads evs = [0, 1, 2] ∧ (btLines evs).length = 1) ↔
        ((sampleTick true).conversionComplete = true ∨ 1 = 0)) ∧
      (¬ ((sampleTick true).conversionComplete = true ∨ 1 = 0) →
        channelReads evs = [] ∧ btLines evs = []) ∧
      (0 < 1 → btLines evs ≠ [] → (sampleTick true).conversionComplete = true)) :=
  ⟨rfl, gate_correct_over_runs SourceFile.esp32Arduino_cpp samplePlatform true
    [sampleTick false, sampleTick true, sampleTick false, sampleTick true] 1 (sampleTick true) rfl⟩


/-! ## Observations distribute over concatenation -/

section Observations

variable {F : Type}

theorem channelReads_append (a b : List Event) :
    channelReads (a ++ b) = channelReads a ++ channelReads b := by
  induction a with
  | nil => rfl
  | cons e es ih => cases e <;> simp [channelReads, ih]

theorem btLines_append (a b : List Event) : btLines (a ++ b) = btLines a ++ btLines b := by
  induction a with
  | nil => rfl
  | cons e es ih => cases e <;> simp [btLines, ih]

theorem serialWrites_append (a b : List Event) :
    serialWrites (a ++ b) = serialWrites a ++ serialWrites b := by
  induction a with
  | nil => rfl
  | cons e es ih => cases e <;> simp [serialWrites, ih]

theorem adsCalls_append (a b : List Event) : adsCalls (a ++ b) = adsCalls a ++ adsCalls b := by
  induction a with
  | nil => rfl
  | cons e es ih => cases e <;> simp [adsCalls, ih]

theorem gainsSet_append (a b : List Event) : gainsSet (a ++ b) = gainsSet a ++ gainsSet b := by
  induction a with
  | nil => rfl
  | cons e es ih => cases e <;> simp [gainsSet, ih]

theorem dataRatesSet_append (a b : List Event) :
    dataRatesSet (a ++ b) = dataRatesSet a ++ dataRatesSet b := by
  induction a with
  | nil => rfl
  | cons e es ih => cases e <;> simp [dataRatesSet, ih]

theorem flatten_map_const (e : Event) (ts : List Tick) :
    (ts.map (fun _ => [e])).flatten = List.replicate ts.length e := by
  induction ts with
  | nil => rfl
  | cons t ts ih => simp [List.replicate_succ, ih]

theorem iterations_append (sk : Sketch F) (P : Platform F) (m : Machine) (a b : List Tick) :
    iterations sk P m (a ++ b) = iterations sk P m a ++ iterations sk P (final sk P m a) b := by
  induction a generalizing m with
  | nil => rfl
  | cons t ts ih => simp [iterations, final, ih]

theorem final_append (sk : Sketch F) (P : Platform F) (m : Machine) (a b : List Tick) :
    final sk P m (a ++ b) = final sk P (final sk P m a) b := by
  induction a generalizing m with
  | nil => rfl
  | cons t ts ih => simp [final, ih]

/-- A run of passes on which `conversionComplete()` always answers false, from
`starting = false`, is a run of bare queries. -/
theorem iterations_skips (P : Platform F) (ts : List Tick)
    (h : ∀ u ∈ ts, u.conversionComplete = false) :
    iterations (esp32Arduino.sketch F) P ⟨false, Control.in_main_loop⟩ ts =
      ts.map (fun _ => [Event.ads_conversionComplete false]) := by
  rw [iterations_steady]
  apply List.map_congr_left
  intro u hu
  rw [loop_skip P u (h u hu)]

theorem btLines_queries (n : Nat) :
    btLines (List.replicate n (Event.ads_conversionComplete false)) = [] := by
  induction n with
  | zero => rfl
  | succ n ih => simp [List.replicate_succ, btLines, ih]

theorem loop_calls (P : Platform F) (s : Bool) (t : Tick) :
    (esp32Arduino.loop P s t).2 = acceptedCalls P t ∨
      (esp32Arduino.loop P s t).2 = [Event.ads_conversionComplete t.conversionComplete] := by
  cases h : (t.conversionComplete || s)
  · right
    simp [esp32Arduino.loop, h]
  · left
    rw [loop_accept P s t h]

theorem settings_in_loop (P : Platform F) (s : Bool) (ts : List Tick) :
    gainsSet (iterations (esp32Arduino.sketch F) P ⟨s, Control.in_main_loop⟩ ts).flatten = [] ∧
    dataRatesSet (iterations (esp32Arduino.sketch F) P ⟨s, Control.in_main_loop⟩ ts).flatten
      = [] := by
  induction ts generalizing s with
  | nil => exact ⟨rfl, rfl⟩
  | cons t ts ih =>
    simp only [iterations, step_main, List.flatten_cons, gainsSet_append, dataRatesSet_append,
      (ih _).1, (ih _).2, List.append_nil]
    rcases loop_calls P s t with h | h <;> rw [h] <;> exact ⟨rfl, rfl⟩

end Observations

/-- C2, first-pass behaviour.  In the state a successful `setup()` leaves, `starting`
is true; a first call of `loop()` on which `conversionComplete()` answers false (the
query and its answer open the pass) sends exactly one line to `SerialBT` and leaves
`starting = false`; and over any later
sequence of calls on which `conversionComplete()` answers false, `starting` is false
after every one of them and no line is sent. -/
theorem first_pass {F : Type} (f : SourceFile) (P : Platform F) (bt : Bool) (t : Tick)
    (ht : t.conversionComplete = false) (later : List Tick)
    (hl : ∀ u ∈ later, u.conversionComplete = false) :
    (boot (f.sketch F) bt true).1.starting = true ∧
    (step (f.sketch F) P (boot (f.sketch F) bt true).1 t).2.head? =
      some (Event.ads_conversionComplete false) ∧
    (btLines (step (f.sketch F) P (boot (f.sketch F) bt true).1 t).2).length = 1 ∧
    (step (f.sketch F) P (boot (f.sketch F) bt true).1 t).1.starting = false ∧
    (∀ n, (final (f.sketch F) P (step (f.sketch F) P (boot (f.sketch F) bt true).1 t).1
        (later.take n)).starting = false) ∧
    btLines (iterations (f.sketch F) P
        (step (f.sketch F) P (boot (f.sketch F) bt true).1 t).1 later).flatten = [] := by
  have hstep : step (esp32Arduino.sketch F) P afterSetup t =
      (⟨false, Control.in_main_loop⟩, acceptedCalls P t) := by
    simp only [afterSetup, step_main, loop_first]
  rw [sketch_eq f, boot_ok bt]
  simp only [hstep, final_steady, iterations_skips P later hl, flatten_map_const,
    btLines_queries, btLines_accepted]
  refine ⟨rfl, ?_, rfl, trivial, fun _ => trivial, trivial⟩
  simp [acceptedCalls, ht]

/-- Witness for C2: a first pass and three later passes, all with a false answer. -/
theorem first_pass_witness :
    (sampleTick false).conversionComplete = false ∧
    (∀ u ∈ [sampleTick false, sampleTick false, sampleTick false],
      u.conversionComplete = false) ∧
    ((boot (SourceFile.ESP32Main_cpp.sketch Int) false true).1.starting = true ∧
    (step (SourceFile.ESP32Main_cpp.sketch Int) samplePlatform
      (boot (SourceFile.ESP32Main_cpp.sketch Int) false true).1 (sampleTick false)).2.head? =
        some (Event.ads_conversionComplete false) ∧
    (btLines (step (SourceFile.ESP32Main_cpp.sketch Int) samplePlatform
      (boot (SourceFile.ESP32Main_cpp.sketch Int) false true).1 (sampleTick false)).2).length
        = 1 ∧
    (step (SourceFile.ESP32Main_cpp.sketch Int) samplePlatform
      (boot (SourceFile.ESP32Main_cpp.sketch Int) false true).1 (sampleTick false)).1.starting
        = false ∧
    (∀ n, (final (SourceFile.ESP32Main_cpp.sketch Int) samplePlatform
        (step (SourceFile.ESP32Main_cpp.sketch Int) samplePlatform
          (boot (SourceFile.ESP32Main_cpp.sketch Int) false true).1 (sampleTick false)).1
        ([sampleTick false, sampleTick false, sampleTick false].take n)).starting = false) ∧
    btLines (iterations (SourceFile.ESP32Main_cpp.sketch Int) samplePlatform
        (step (SourceFile.ESP32Main_cpp.sketch Int) samplePlatform
          (boot (SourceFile.ESP32Main_cpp.sketch Int) false true).1 (sampleTick false)).1
        [sampleTick false, sampleTick false, sampleTick false]).flatten = []) :=
  ⟨rfl, by simp [sampleTick],
    first_pass SourceFile.ESP32Main_cpp samplePlatform false (sampleTick false) rfl
      [sampleTick false, sampleTick false, sampleTick false] (by simp [sampleTick])⟩


/-- C3, format of a transmitted sample.  On every pass of `loop()` that goes through
the `if` (in either sketch), with `a`, `b`, `c` the voltages computed from the raw
codes of channels 0, 1, 2, `SerialBT.println` is called once, on the string
`str a ++ "," ++ str b ++ "," ++ str c`, and the characters sent to `SerialBT` are
exactly that string followed by a single newline character: as a character sequence,
the characters of `str a`, a comma, those of `str b`, a comma, those of `str c`, a
newline, with nothing before, between or after.  So what is sent has exactly two
commas more than the three converted values bring along. -/
theorem transmitted_line_format {F : Type} (f : SourceFile) (P : Platform F) (s : Bool)
    (t : Tick) (h : (t.conversionComplete || s) = true) :
    btLines ((f.sketch F).loop P s t).2 =
      [ P.String_of_float (P.computeVolts (t.readADC_SingleEnded 0)) ++ "," ++
          P.String_of_float (P.computeVolts (t.readADC_SingleEnded 1)) ++ "," ++
          P.String_of_float (P.computeVolts (t.readADC_SingleEnded 2)) ] ∧
    SerialBT_bytes ((f.sketch F).loop P s t).2 =
      P.String_of_float (P.computeVolts (t.readADC_SingleEnded 0)) ++ "," ++
        P.String_of_float (P.computeVolts (t.readADC_SingleEnded 1)) ++ "," ++
        P.String_of_float (P.computeVolts (t.readADC_SingleEnded 2)) ++ "\n" ∧
    (SerialBT_bytes ((f.sketch F).loop P s t).2).toList =
      (P.String_of_float (P.computeVolts (t.readADC_SingleEnded 0))).toList ++ [','] ++
        (P.String_of_float (P.computeVolts (t.readADC_SingleEnded 1))).toList ++ [','] ++
        (P.String_of_float (P.computeVolts (t.readADC_SingleEnded 2))).toList ++ ['\n'] ∧
    (SerialBT_bytes ((f.sketch F).loop P s t).2).toList.count ',' =
      (P.String_of_float (P.computeVolts (t.readADC_SingleEnded 0))).toList.count ',' +
      (P.String_of_float (P.computeVolts (t.readADC_SingleEnded 1))).toList.count ',' +
      (P.String_of_float (P.computeVolts (t.readADC_SingleEnded 2))).toList.count ',' + 2 := by
  rw [sketch_eq f]
  have hl : (esp32Arduino.sketch F).loop P s t = (false, acceptedCalls P t) := loop_accept P s t h
  have hb : SerialBT_bytes (acceptedCalls P t) =
      P.String_of_float (P.computeVolts (t.readADC_SingleEnded 0)) ++ "," ++
        P.String_of_float (P.computeVolts (t.readADC_SingleEnded 1)) ++ "," ++
        P.String_of_float (P.computeVolts (t.readADC_SingleEnded 2)) ++ "\n" := by
    simp [acceptedCalls, SerialBT_bytes, println_terminator]
  rw [hl]
  refine ⟨rfl, hb, ?_, ?_⟩
  · rw [hb]
    simp
  · rw [hb]
    simp [List.count_append]
    omega

/-- Witness for C3: an accepted pass on the sample platform, where the raw codes of
channels 0, 1, 2 are 100, 200, 300, sends `100,200,300` and a newline. -/
theorem transmitted_line_format_witness :
    ((sampleTick true).conversionComplete || false) = true ∧
    SerialBT_bytes
      ((SourceFile.esp32Arduino_cpp.sketch Int).loop samplePlatform false (sampleTick true)).2 =
        "100,200,300\n" :=
  ⟨rfl, by
    rw [(transmitted_line_format SourceFile.esp32Arduino_cpp samplePlatform false
      (sampleTick true) rfl).2.1]
    decide⟩

/-- C4, channel ordering.  On every pass of `loop()` that goes through the `if` (in
either sketch) the channels read are 0, 1, 2, each once and in that order; the calls
on the driver are the query, then for channel 0, 1, 2 in turn the read followed by
`computeVolts` on the raw code just read; and the line sent has as its first, second
and third field the converted voltage of the raw code of channel 0, 1 and 2. -/
theorem channel_ordering {F : Type} (f : SourceFile) (P : Platform F) (s : Bool)
    (t : Tick) (h : (t.conversionComplete || s) = true) :
    channelReads ((f.sketch F).loop P s t).2 = [0, 1, 2] ∧
    adsCalls ((f.sketch F).loop P s t).2 =
      [ Event.ads_conversionComplete t.conversionComplete,
        Event.ads_readADC_SingleEnded 0 (t.readADC_SingleEnded 0),
        Event.ads_computeVolts (t.readADC_SingleEnded 0),
        Event.ads_readADC_SingleEnded 1 (t.readADC_SingleEnded 1),
        Event.ads_computeVolts (t.readADC_SingleEnded 1),
        Event.ads_readADC_SingleEnded 2 (t.readADC_SingleEnded 2),
        Event.ads_computeVolts (t.readADC_SingleEnded 2) ] ∧
    btLines ((f.sketch F).loop P s t).2 =
      [ String.intercalate ","
          [ P.String_of_float (P.computeVolts (t.readADC_SingleEnded 0)),
            P.String_of_float (P.computeVolts (t.readADC_SingleEnded 1)),
            P.String_of_float (P.computeVolts (t.readADC_SingleEnded 2)) ] ] := by
  rw [sketch_eq f]
  have hl : (esp32Arduino.sketch F).loop P s t = (false, acceptedCalls P t) := loop_accept P s t h
  rw [hl]
  refine ⟨rfl, rfl, ?_⟩
  simp [btLines_accepted, String.intercalate, String.intercalate.go, String.append_assoc]

/-- Witness for C4: the first pass after `setup()` on the sample platform, where the
raw codes of channels 0, 1, 2 are 100, 200, 300. -/
theorem channel_ordering_witness :
    ((sampleTick false).conversionComplete || true) = true ∧
    channelReads
      ((SourceFile.ESP32Main_cpp.sketch Int).loop samplePlatform true (sampleTick false)).2 =
        [0, 1, 2] ∧
    btLines
      ((SourceFile.ESP32Main_cpp.sketch Int).loop samplePlatform true (sampleTick false)).2 =
        ["100,200,300"] :=
  ⟨rfl,
    (channel_ordering SourceFile.ESP32Main_cpp samplePlatform true (sampleTick false) rfl).1,
    by decide⟩


section Halt

variable {F : Type}

theorem run_failed (P : Platform F) (bt : Bool) (ticks : List Tick) :
    run (esp32Arduino.sketch F) P bt false ticks =
      (⟨true, Control.in_halt_loop⟩,
        [ Event.Serial_begin 115200, Event.delay 1000, Event.SerialBT_begin "ESP32-BT" bt,
          Event.Serial_println "Bluetooth device started. Pair with \"ESP32-BT\".",
          Event.ads_begin false, Event.Serial_println "Failed to initialize ADS1115!" ] ++
          List.replicate ticks.length (Event.delay 10)) := by
  simp only [run, boot_failed, final_halt, iterations_halt, flatten_map_const]

theorem observations_delays (n : Nat) :
    channelReads (List.replicate n (Event.delay 10)) = [] ∧
    btLines (List.replicate n (Event.delay 10)) = [] ∧
    serialWrites (List.replicate n (Event.delay 10)) = [] ∧
    adsCalls (List.replicate n (Event.delay 10)) = [] ∧
    gainsSet (List.replicate n (Event.delay 10)) = [] ∧
    dataRatesSet (List.replicate n (Event.delay 10)) = [] := by
  induction n with
  | zero => exact ⟨rfl, rfl, rfl, rfl, rfl, rfl⟩
  | succ n ih =>
    obtain ⟨h1, h2, h3, h4, h5, h6⟩ := ih
    simp [List.replicate_succ, channelReads, btLines, serialWrites, adsCalls, gainsSet,
      dataRatesSet, h1, h2, h3, h4, h5, h6]

end Halt

/-- C5, fatal path.  When `ads.begin()` returns false (in either sketch, whatever
`SerialBT.begin` returned), `setup()` ends up inside its `while (1)` and, however many
further steps are taken, control is still there.  The calls of the whole run are the
six calls of `setup()` up to the failure message followed by nothing but `delay(10)`:
the message is printed exactly once, `loop()` never runs (the driver sees `begin()` and
no other call), no channel is read, neither gain nor data rate is set, nothing is sent
to `SerialBT`, and `Serial` receives the banner and the failure message only. -/
theorem fatal_path {F : Type} (f : SourceFile) (P : Platform F) (bt : Bool)
    (ticks : List Tick) :
    (boot (f.sketch F) bt false).1.control = Control.in_halt_loop ∧
    (run (f.sketch F) P bt false ticks).1.control = Control.in_halt_loop ∧
    (run (f.sketch F) P bt false ticks).2 =
      [ Event.Serial_begin 115200, Event.delay 1000, Event.SerialBT_begin "ESP32-BT" bt,
        Event.Serial_println "Bluetooth device started. Pair with \"ESP32-BT\".",
        Event.ads_begin false, Event.Serial_println "Failed to initialize ADS1115!" ] ++
        List.replicate ticks.length (Event.delay 10) ∧
    List.count (Event.Serial_println "Failed to initialize ADS1115!")
      (run (f.sketch F) P bt false ticks).2 = 1 ∧
    adsCalls (run (f.sketch F) P bt false ticks).2 = [Event.ads_begin false] ∧
    channelReads (run (f.sketch F) P bt false ticks).2 = [] ∧
    gainsSet (run (f.sketch F) P bt false ticks).2 = [] ∧
    dataRatesSet (run (f.sketch F) P bt false ticks).2 = [] ∧
    btLines (run (f.sketch F) P bt false ticks).2 = [] ∧
    serialWrites (run (f.sketch F) P bt false ticks).2 =
      [ Event.Serial_println "Bluetooth device started. Pair with \"ESP32-BT\".",
        Event.Serial_println "Failed to initialize ADS1115!" ] := by
  obtain ⟨h1, h2, h3, h4, h5, h6⟩ := observations_delays ticks.length
  rw [sketch_eq f, run_failed P bt ticks, boot_failed bt]
  refine ⟨rfl, rfl, rfl, ?_, ?_, ?_, ?_, ?_, ?_, ?_⟩
  · have hne : (Event.delay 10 == Event.Serial_println "Failed to initialize ADS1115!")
        = false := by decide
    rw [List.count_append, List.count_replicate, hne]
    simp only [Bool.false_eq_true, if_false, Nat.add_zero]
    cases bt <;> decide
  · rw [adsCalls_append, h4]; rfl
  · rw [channelReads_append, h1]; rfl
  · rw [gainsSet_append, h5]; rfl
  · rw [dataRatesSet_append, h6]; rfl
  · rw [btLines_append, h2]; rfl
  · rw [serialWrites_append, h3]; rfl

section Scale

theorem computeVolts_spec_eq (r : Int) : computeVolts_spec r = r * 4.096 / 32768 := by
  unfold computeVolts_spec full_scale_range
  ring

theorem computeVolts_spec_lt (a b : Int) (h : a < b) :
    computeVolts_spec a < computeVolts_spec b := by
  unfold computeVolts_spec full_scale_range
  have hab : (a : ℚ) < b := by exact_mod_cast h
  have hpos : (0 : ℚ) < 4.096 / 32768 := by norm_num
  exact mul_lt_mul_of_pos_right hab hpos

end Scale

/-- C6, scale invariant, with the driver's `computeVolts` modelled from the spec.  The
gain in force is the one `setup()` configures, `GAIN_ONE`.  On every pass of `loop()`
that goes through the `if` (in either sketch) the three fields of the line sent are
the string conversions of `r × 4.096 / 32768`, in exact rational arithmetic, for `r`
the raw code of channel 0, 1 and 2; the voltage of every raw code `r` is
`r × 4.096 / 32768`, so 16384 maps to 2.048 V and 0 to 0 V, and the map is linear
(additive and homogeneous) and strictly increasing in `r`. -/
theorem scale_invariant (f : SourceFile) (str : ℚ → String) (bt s : Bool) (t : Tick)
    (h : (t.conversionComplete || s) = true) :
    gainsSet (boot (f.sketch ℚ) bt true).2 = [adsGain_t.GAIN_ONE] ∧
    btLines ((f.sketch ℚ).loop (specPlatform str) s t).2 =
      [ str ((t.readADC_SingleEnded 0 : ℚ) * 4.096 / 32768) ++ "," ++
          str ((t.readADC_SingleEnded 1 : ℚ) * 4.096 / 32768) ++ "," ++
          str ((t.readADC_SingleEnded 2 : ℚ) * 4.096 / 32768) ] ∧
    (∀ r : Int, (specPlatform str).computeVolts r = r * 4.096 / 32768) ∧
    (specPlatform str).computeVolts 16384 = 2.048 ∧
    (specPlatform str).computeVolts 0 = 0 ∧
    (∀ a b : Int, (specPlatform str).computeVolts (a + b) =
      (specPlatform str).computeVolts a + (specPlatform str).computeVolts b) ∧
    (∀ k a : Int, (specPlatform str).computeVolts (k * a) =
      k * (specPlatform str).computeVolts a) ∧
    (∀ a b : Int, a < b →
      (specPlatform str).computeVolts a < (specPlatform str).computeVolts b) := by
  have hl : (esp32Arduino.sketch ℚ).loop (specPlatform str) s t =
      (false, acceptedCalls (specPlatform str) t) := loop_accept (specPlatform str) s t h
  rw [sketch_eq f, boot_ok bt, hl]
  refine ⟨rfl, ?_, ?_, ?_, ?_, ?_, ?_, ?_⟩
  · simp only [btLines_accepted, specPlatform, computeVolts_spec_eq]
  · intro r
    exact computeVolts_spec_eq r
  · show computeVolts_spec 16384 = 2.048
    rw [computeVolts_spec_eq]
    norm_num
  · show computeVolts_spec 0 = 0
    simp [computeVolts_spec]
  · intro a b
    show computeVolts_spec (a + b) = computeVolts_spec a + computeVolts_spec b
    simp only [computeVolts_spec, Int.cast_add]
    ring
  · intro k a
    show computeVolts_spec (k * a) = k * computeVolts_spec a
    simp only [computeVolts_spec, Int.cast_mul]
    ring
  · intro a b hab
    exact computeVolts_spec_lt a b hab

/-- Witness for C6: the first pass after `setup()` with raw codes 16384, 0 and -32768
on channels 0, 1, 2 sends the conversions of 2.048, 0 and -4.096. -/
theorem scale_invariant_witness :
    (scaleTick.conversionComplete || true) = true ∧
    btLines ((SourceFile.esp32Arduino_cpp.sketch ℚ).loop (specPlatform sampleRatString)
        true scaleTick).2 =
      [ sampleRatString 2.048 ++ "," ++ sampleRatString 0 ++ "," ++
          sampleRatString (-4.096) ] :=
  ⟨rfl, by
    rw [(scale_invariant SourceFile.esp32Arduino_cpp sampleRatString true true scaleTick
      rfl).2.1]
    norm_num [scaleTick]⟩

/-- C7, evaluation of `setup()` on the success path.  When `ads.begin()` returns true
(in either sketch) `setup()` returns; over the whole run `setGain` is called exactly
once, with `GAIN_ONE`, and `setDataRate` exactly once, both inside `setup()` and so
before the first pass of `loop()`.  The value handed to `setDataRate` is the literal
`250`, which is not the driver's selector for 250 samples per second. -/
theorem setup_hands_literal_250 {F : Type} (f : SourceFile) (P : Platform F) (bt : Bool)
    (ticks : List Tick) :
    (boot (f.sketch F) bt true).1.control = Control.in_main_loop ∧
    gainsSet (boot (f.sketch F) bt true).2 = [adsGain_t.GAIN_ONE] ∧
    dataRatesSet (boot (f.sketch F) bt true).2 = [250] ∧
    gainsSet (run (f.sketch F) P bt true ticks).2 = [adsGain_t.GAIN_ONE] ∧
    dataRatesSet (run (f.sketch F) P bt true ticks).2 = [250] ∧
    dataRatesSet (run (f.sketch F) P bt true ticks).2 ≠ [RATE_ADS1115_250SPS] := by
  have hs := settings_in_loop P true ticks
  have hg : gainsSet (run (esp32Arduino.sketch F) P bt true ticks).2 = [adsGain_t.GAIN_ONE] := by
    simp only [run, boot_ok, afterSetup, gainsSet_append, hs.1, List.append_nil]
    rfl
  have hd : dataRatesSet (run (esp32Arduino.sketch F) P bt true ticks).2 = [250] := by
    simp only [run, boot_ok, afterSetup, dataRatesSet_append, hs.2, List.append_nil]
    rfl
  rw [sketch_eq f, hg, hd, boot_ok bt]
  exact ⟨rfl, rfl, rfl, rfl, rfl, by decide⟩


section Skips

variable {F : Type}

theorem observations_queries (n : Nat) :
    channelReads (List.replicate n (Event.ads_conversionComplete false)) = [] ∧
    serialWrites (List.replicate n (Event.ads_conversionComplete false)) = [] := by
  induction n with
  | zero => exact ⟨rfl, rfl⟩
  | succ n ih =>
    obtain ⟨h1, h2⟩ := ih
    simp [List.replicate_succ, channelReads, serialWrites, h1, h2]

/-- Passes with a false answer put between a non-empty run and what follows it only
add bare queries to the calls. -/
theorem iterations_insert (P : Platform F) (t0 : Tick) (before skips after : List Tick)
    (hs : ∀ u ∈ skips, u.conversionComplete = false) :
    (iterations (esp32Arduino.sketch F) P afterSetup
        ((t0 :: before) ++ skips ++ after)).flatten =
      (iterations (esp32Arduino.sketch F) P afterSetup (t0 :: before)).flatten ++
        List.replicate skips.length (Event.ads_conversionComplete false) ++
        (iterations (esp32Arduino.sketch F) P ⟨false, Control.in_main_loop⟩ after).flatten ∧
    (iterations (esp32Arduino.sketch F) P afterSetup ((t0 :: before) ++ after)).flatten =
      (iterations (esp32Arduino.sketch F) P afterSetup (t0 :: before)).flatten ++
        (iterations (esp32Arduino.sketch F) P ⟨false, Control.in_main_loop⟩ after).flatten := by
  constructor
  · rw [List.append_assoc, iterations_append, final_afterSetup, iterations_append, final_steady,
      iterations_skips P skips hs, List.flatten_append, List.flatten_append, flatten_map_const,
      List.append_assoc]
  · rw [iterations_append, final_afterSetup, List.flatten_append]

theorem final_insert (P : Platform F) (t0 : Tick) (before skips after : List Tick) :
    final (esp32Arduino.sketch F) P afterSetup ((t0 :: before) ++ skips ++ after) =
      final (esp32Arduino.sketch F) P afterSetup ((t0 :: before) ++ after) := by
  rw [List.append_assoc, final_append, final_afterSetup, final_append, final_steady,
    final_append, final_afterSetup]

end Skips

/-- C8, skipped iterations are no-ops.  With `starting = false`, a call of `loop()` on
which `conversionComplete()` answers false makes that one query and nothing else:
`starting` is unchanged, no channel is read, nothing is written to `Serial` or
`SerialBT`.  Hence, in a run after a successful `setup()`, putting any number of such
calls between a non-empty run of iterations and the iterations that follow changes
neither the lines sent to `SerialBT`, nor what is written to `Serial`, nor the channels
read, nor the final state. -/
theorem skipped_iterations_are_noops {F : Type} (f : SourceFile) (P : Platform F) (bt : Bool)
    (t : Tick) (ht : t.conversionComplete = false)
    (before skips after : List Tick) (hb : before ≠ [])
    (hs : ∀ u ∈ skips, u.conversionComplete = false) :
    step (f.sketch F) P ⟨false, Control.in_main_loop⟩ t =
      (⟨false, Control.in_main_loop⟩, [Event.ads_conversionComplete false]) ∧
    channelReads (step (f.sketch F) P ⟨false, Control.in_main_loop⟩ t).2 = [] ∧
    serialWrites (step (f.sketch F) P ⟨false, Control.in_main_loop⟩ t).2 = [] ∧
    btLines (step (f.sketch F) P ⟨false, Control.in_main_loop⟩ t).2 = [] ∧
    btLines (run (f.sketch F) P bt true (before ++ skips ++ after)).2 =
      btLines (run (f.sketch F) P bt true (before ++ after)).2 ∧
    serialWrites (run (f.sketch F) P bt true (before ++ skips ++ after)).2 =
      serialWrites (run (f.sketch F) P bt true (before ++ after)).2 ∧
    channelReads (run (f.sketch F) P bt true (before ++ skips ++ after)).2 =
      channelReads (run (f.sketch F) P bt true (before ++ after)).2 ∧
    (run (f.sketch F) P bt true (before ++ skips ++ after)).1 =
      (run (f.sketch F) P bt true (before ++ after)).1 := by
  have hstep : step (esp32Arduino.sketch F) P ⟨false, Control.in_main_loop⟩ t =
      (⟨false, Control.in_main_loop⟩, [Event.ads_conversionComplete false]) := by
    rw [step_main, loop_skip P t ht]
  rw [sketch_eq f, hstep]
  refine ⟨rfl, rfl, rfl, rfl, ?_⟩
  cases before with
  | nil => exact absurd rfl hb
  | cons t0 bs =>
    obtain ⟨h1, h2⟩ := iterations_insert P t0 bs skips after hs
    obtain ⟨q1, q2⟩ := observations_queries skips.length
    simp only [run, boot_ok, h1, h2, final_insert, btLines_append, serialWrites_append,
      channelReads_append, btLines_queries, q1, q2, List.append_nil, and_self]

/-- Witness for C8: two skipped passes put between an accepted first pass and an
accepted later pass. -/
theorem skipped_iterations_are_noops_witness :
    (sampleTick false).conversionComplete = false ∧
    [sampleTick true] ≠ [] ∧
    (∀ u ∈ [sampleTick false, sampleTick false], u.conversionComplete = false) ∧
    btLines (run (SourceFile.esp32Arduino_cpp.sketch Int) samplePlatform true true
        ([sampleTick true] ++ [sampleTick false, sampleTick false] ++ [sampleTick true])).2 =
      btLines (run (SourceFile.esp32Arduino_cpp.sketch Int) samplePlatform true true
        ([sampleTick true] ++ [sampleTick true])).2 :=
  ⟨rfl, by simp, by simp [sampleTick],
    (skipped_iterations_are_noops SourceFile.esp32Arduino_cpp samplePlatform true
      (sampleTick false) rfl [sampleTick true] [sampleTick false, sampleTick false]
      [sampleTick true] (by simp) (by simp [sampleTick])).2.2.2.2.1⟩

/-- C9, the result of `SerialBT.begin` is ignored.  For the same `ads.begin()` result
and the same driver answers, the run in which `SerialBT.begin(device_name)` returned
true and the run in which it returned false end in the same state, write the same to
`Serial` (the banner included), make the same calls on the ADC driver (so the same
configuration and the same channel reads) and hand the same lines to
`SerialBT.println`; the two call sequences agree everywhere but in the recorded result
of `SerialBT.begin`, the third call. -/
theorem bluetooth_start_result_ignored {F : Type} (f : SourceFile) (P : Platform F)
    (ads : Bool) (ticks : List Tick) :
    (run (f.sketch F) P true ads ticks).1 = (run (f.sketch F) P false ads ticks).1 ∧
    serialWrites (boot (f.sketch F) true ads).2 = serialWrites (boot (f.sketch F) false ads).2 ∧
    serialWrites (run (f.sketch F) P true ads ticks).2 =
      serialWrites (run (f.sketch F) P false ads ticks).2 ∧
    adsCalls (run (f.sketch F) P true ads ticks).2 =
      adsCalls (run (f.sketch F) P false ads ticks).2 ∧
    gainsSet (run (f.sketch F) P true ads ticks).2 =
      gainsSet (run (f.sketch F) P false ads ticks).2 ∧
    dataRatesSet (run (f.sketch F) P true ads ticks).2 =
      dataRatesSet (run (f.sketch F) P false ads ticks).2 ∧
    channelReads (run (f.sketch F) P true ads ticks).2 =
      channelReads (run (f.sketch F) P false ads ticks).2 ∧
    btLines (run (f.sketch F) P true ads ticks).2 =
      btLines (run (f.sketch F) P false ads ticks).2 ∧
    (run (f.sketch F) P true ads ticks).2.take 2 =
      (run (f.sketch F) P false ads ticks).2.take 2 ∧
    (run (f.sketch F) P true ads ticks).2.drop 3 =
      (run (f.sketch F) P false ads ticks).2.drop 3 := by
  rw [sketch_eq f]
  cases ads
  · simp only [run, boot_failed, serialWrites_append, adsCalls_append, gainsSet_append,
      dataRatesSet_append, channelReads_append, btLines_append]
    refine ⟨?_, ?_, ?_, ?_, ?_, ?_, ?_, ?_, ?_, ?_⟩ <;> trivial
  · simp only [run, boot_ok, serialWrites_append, adsCalls_append, gainsSet_append,
      dataRatesSet_append, channelReads_append, btLines_append]
    refine ⟨?_, ?_, ?_, ?_, ?_, ?_, ?_, ?_, ?_, ?_⟩ <;> trivial

/-- C10, the two sketches behave alike.  `ESP32Main.cpp` and `esp32Arduino.cpp` start
from the same value of `starting`; for all results of `SerialBT.begin` and
`ads.begin()` their `setup()` makes the same calls and ends in the same place; for
every value of `starting` and all driver answers their `loop()` makes the same calls
and leaves the same `starting`; and so for every sequence of driver answers their runs
make the same calls iteration by iteration and have the same state after every
iteration. -/
theorem sketches_behave_alike {F : Type} (P : Platform F) (bt ads s : Bool) (t : Tick)
    (ticks : List Tick) :
    ESP32Main.starting = esp32Arduino.starting ∧
    ESP32Main.device_name = esp32Arduino.device_name ∧
    ESP32Main.setup bt ads = esp32Arduino.setup bt ads ∧
    ESP32Main.halt_loop_body = esp32Arduino.halt_loop_body ∧
    ESP32Main.loop P s t = esp32Arduino.loop P s t ∧
    run (ESP32Main.sketch F) P bt ads ticks = run (esp32Arduino.sketch F) P bt ads ticks ∧
    iterations (ESP32Main.sketch F) P (boot (ESP32Main.sketch F) bt ads).1 ticks =
      iterations (esp32Arduino.sketch F) P (boot (esp32Arduino.sketch F) bt ads).1 ticks ∧
    ∀ n, final (ESP32Main.sketch F) P (boot (ESP32Main.sketch F) bt ads).1 (ticks.take n) =
      final (esp32Arduino.sketch F) P (boot (esp32Arduino.sketch F) bt ads).1 (ticks.take n) := by
  have h : ESP32Main.sketch F = esp32Arduino.sketch F := rfl
  rw [h]
  exact ⟨rfl, rfl, rfl, rfl, rfl, rfl, rfl, fun _ => rfl⟩

end Wisteria
